import Mathlib

/-!
# Verification of the bill-extraction service (`src/api/index.py`)

Shallow embedding of the single-endpoint FastAPI service that downloads a
bill document, calls the Gemini model with a strict JSON schema, validates
the model output with pydantic, and recomputes aggregate totals from the
extracted line items.

Modelling conventions:
* Python `float` values are modelled as exact rationals `ℚ`; Python
  `round(x, 2)` is modelled as round-half-to-even on rationals.
* The JSON tree handed to pydantic is the inductive `Json`; the pydantic
  models (`BillItem`, `PagewiseLineItem`, `LLMExtractionOutput`) are Lean
  structures together with validators that follow pydantic v2 default
  (lax) validation: a `float` field accepts JSON numbers and numeric
  strings and rejects booleans; a `str` field accepts only JSON strings;
  a missing required field fails the whole model.
* Network I/O is modelled by an environment (`Env`) that fixes the outcome
  of the document fetch and of each successive model call, and the
  pipeline returns its result together with the ordered list of side
  effects (`Effect`) it performed, so that short-circuiting claims
  ("no outbound call happens") are statable.
* Base64 encoding is abstracted: the fetched document body is carried as
  the base64 text itself, since no claim inspects the encoding.
-/

namespace BillExtract

/-! ## Pydantic schema structures (lines 20–57 of the source) -/

/-- `BillItem`: one extracted line item (all four fields required). -/
structure BillItem where
  item_name : String
  item_amount : ℚ
  item_rate : ℚ
  item_quantity : ℚ
deriving Repr, DecidableEq

/-- `PagewiseLineItem`: the line items extracted from a single page.
`page_type` is declared in the source as a plain `str` field (its Field
description names the three intended classifications, but no enum or
Literal constraint is attached). -/
structure PagewiseLineItem where
  page_no : String
  page_type : String
  bill_items : List BillItem
deriving Repr, DecidableEq

/-- `LLMExtractionOutput`: the whole model output for one document. -/
structure LLMExtractionOutput where
  pagewise_line_items : List PagewiseLineItem
  document_final_total : ℚ
deriving Repr, DecidableEq

/-- `TokenUsage` block of the response. -/
structure TokenUsage where
  total_tokens : ℕ
  input_tokens : ℕ
  output_tokens : ℕ
deriving Repr, DecidableEq

/-- `ExtractionData` block of the response. -/
structure ExtractionData where
  pagewise_line_items : List PagewiseLineItem
  final_total_extracted : ℚ
  total_item_count : ℕ
  sub_total_extracted : Option ℚ
deriving Repr, DecidableEq

/-- `ExtractionResponse`: the final success payload. -/
structure ExtractionResponse where
  is_success : Bool
  token_usage : TokenUsage
  data : ExtractionData
deriving Repr, DecidableEq

/-- A FastAPI `HTTPException`: status code plus detail message. -/
structure HTTPException where
  status_code : ℕ
  detail : String
deriving Repr, DecidableEq

/-! ## JSON values and pydantic v2 lax validation -/

/-- A parsed JSON tree, as produced by `json.loads` on the model's
generated text. -/
inductive Json where
  | null
  | bool (b : Bool)
  | num (q : ℚ)
  | str (s : String)
  | arr (items : List Json)
  | obj (fields : List (String × Json))

/-- Dictionary lookup on a JSON object's field list (first match wins,
like a Python dict built from unique keys). -/
def Json.lookup : List (String × Json) → String → Option Json
  | [], _ => none
  | (k, v) :: rest, key => if k = key then some v else Json.lookup rest key

/-- Digits of a decimal literal folded into a natural number. -/
def natFromDigits (cs : List Char) : ℕ :=
  cs.foldl (fun acc c => acc * 10 + (c.toNat - 48)) 0

/-- Split a character list at a single optional dot; fails when more than
one dot occurs. -/
def splitOnDot : List Char → Option (List Char × List Char)
  | [] => some ([], [])
  | c :: rest =>
    if c = '.' then
      if rest.contains '.' then none else some ([], rest)
    else
      match splitOnDot rest with
      | some (i, f) => some (c :: i, f)
      | none => none

/-- Python float-string parsing as exercised by pydantic v2 lax coercion
of a string to a `float` field, restricted to plain decimal literals
(optional sign, digits, optional fractional part). Exponent, infinity and
nan spellings are outside the shapes any claim exercises and are
rejected here. -/
def parseDecimal (s : String) : Option ℚ :=
  let cs := s.toList
  let signed : ℚ × List Char :=
    match cs with
    | '-' :: rest => (-1, rest)
    | '+' :: rest => (1, rest)
    | _ => (1, cs)
  match splitOnDot signed.2 with
  | none => none
  | some (intPart, fracPart) =>
    if intPart.isEmpty ∧ fracPart.isEmpty then none
    else if intPart.all Char.isDigit ∧ fracPart.all Char.isDigit then
      some (signed.1 * ((natFromDigits intPart : ℚ) +
        (natFromDigits fracPart : ℚ) / (10 : ℚ) ^ fracPart.length))
    else none

/-- Pydantic v2 lax validation of a `float` field on JSON input: accepts
JSON numbers and numeric strings (string-to-float coercion), rejects
booleans, null, arrays and objects. -/
def coerceFloat : Json → Option ℚ
  | .num q => some q
  | .str s => parseDecimal s
  | _ => none

/-- Pydantic v2 lax validation of a `str` field on JSON input: only a
JSON string is accepted (numbers and booleans are not coerced). -/
def coerceStr : Json → Option String
  | .str s => some s
  | _ => none

/-- Pydantic validation of a `BillItem`: all four fields must be present
and of the accepted kinds, otherwise the item (and with it the whole
model) fails. -/
def validateBillItem : Json → Option BillItem
  | .obj fields => do
    let nameJ ← Json.lookup fields "item_name"
    let amountJ ← Json.lookup fields "item_amount"
    let rateJ ← Json.lookup fields "item_rate"
    let qtyJ ← Json.lookup fields "item_quantity"
    let name ← coerceStr nameJ
    let amount ← coerceFloat amountJ
    let rate ← coerceFloat rateJ
    let qty ← coerceFloat qtyJ
    some ⟨name, amount, rate, qty⟩
  | _ => none

/-- Pydantic validation of `List[BillItem]`: every element must validate;
one bad element fails the list. -/
def validateItems : List Json → Option (List BillItem)
  | [] => some []
  | j :: rest => do
    let item ← validateBillItem j
    let restItems ← validateItems rest
    some (item :: restItems)

/-- Pydantic validation of a `PagewiseLineItem`. `page_type` is a plain
`str` field in the source, so any JSON string is accepted for it. -/
def validatePagewiseLineItem : Json → Option PagewiseLineItem
  | .obj fields => do
    let pnoJ ← Json.lookup fields "page_no"
    let ptypeJ ← Json.lookup fields "page_type"
    let itemsJ ← Json.lookup fields "bill_items"
    let pno ← coerceStr pnoJ
    let ptype ← coerceStr ptypeJ
    let itemsArr ← (match itemsJ with | .arr xs => some xs | _ => none)
    let items ← validateItems itemsArr
    some ⟨pno, ptype, items⟩
  | _ => none

/-- Pydantic validation of `List[PagewiseLineItem]`. -/
def validatePages : List Json → Option (List PagewiseLineItem)
  | [] => some []
  | j :: rest => do
    let page ← validatePagewiseLineItem j
    let restPages ← validatePages rest
    some (page :: restPages)

/-- Pydantic validation of the full `LLMExtractionOutput` model, as run by
`LLMExtractionOutput(**llm_output["extracted_data"])` in the endpoint.
Extra keys are ignored (pydantic default); a missing or ill-kinded field
raises `ValidationError`, modelled as `none`. -/
def validateLLMExtractionOutput : Json → Option LLMExtractionOutput
  | .obj fields => do
    let pagesJ ← Json.lookup fields "pagewise_line_items"
    let totalJ ← Json.lookup fields "document_final_total"
    let pagesArr ← (match pagesJ with | .arr xs => some xs | _ => none)
    let pages ← validatePages pagesArr
    let total ← coerceFloat totalJ
    some ⟨pages, total⟩
  | _ => none

/-! ## Rounding and aggregation (lines 191–217 of the source) -/

/-- Python `round` to an integer: round half to even, on exact
rationals. -/
def roundHalfEven (q : ℚ) : ℤ :=
  if q - ⌊q⌋ < 1 / 2 then ⌊q⌋
  else if q - ⌊q⌋ > 1 / 2 then ⌊q⌋ + 1
  else if ⌊q⌋ % 2 = 0 then ⌊q⌋ else ⌊q⌋ + 1

/-- Python `round(x, 2)`. -/
def round2 (q : ℚ) : ℚ := (roundHalfEven (q * 100) : ℚ) / 100

/-- One iteration of the endpoint's page loop over the running state
(cumulative total, cumulative item count, pages appended so far): the
inner item loop adds each item's `item_amount` to a fresh `page_sum` and
bumps the cumulative count, then the page sum is added (unrounded) to
the cumulative total and the page is appended to the output list. -/
def aggStep (acc : ℚ × ℕ × List PagewiseLineItem) (page : PagewiseLineItem) :
    ℚ × ℕ × List PagewiseLineItem :=
  let inner := page.bill_items.foldl
    (fun (st : ℚ × ℕ) item => (st.1 + item.item_amount, st.2 + 1))
    (0, acc.2.1)
  (acc.1 + inner.1, inner.2, acc.2.2 ++ [page])

/-- The aggregation loop of the endpoint: `aggStep` folded over the
pages in order, from zero totals. -/
def aggregatePages (pages : List PagewiseLineItem) :
    ℚ × ℕ × List PagewiseLineItem :=
  pages.foldl aggStep (0, 0, [])

/-- Step 3 of the endpoint: the success response built from the validated
model output and the token usage, with `final_total_extracted` rounded to
2 decimal places exactly once, here. -/
def buildSuccessResponse (d : LLMExtractionOutput) (t : TokenUsage) :
    ExtractionResponse :=
  let agg := aggregatePages d.pagewise_line_items
  { is_success := true
    token_usage := t
    data :=
      { pagewise_line_items := agg.2.2
        final_total_extracted := round2 agg.1
        total_item_count := agg.2.1
        sub_total_extracted := none } }

/-- The flat sum the specification talks about: `item_amount` summed over
every `BillItem` of every page. -/
def totalItemAmount (pages : List PagewiseLineItem) : ℚ :=
  ((pages.flatMap PagewiseLineItem.bill_items).map BillItem.item_amount).sum

/-- The flat count the specification talks about: the number of
`BillItem` entries over all pages. -/
def totalItemCount (pages : List PagewiseLineItem) : ℕ :=
  (pages.flatMap PagewiseLineItem.bill_items).length

/-! ## Document fetch (`_download_file_to_base64`, lines 62–83) -/

/-- Python `str.startswith`, on the character sequence. -/
def pyStartsWith (s p : String) : Bool := p.data.isPrefixOf s.data

/-- What the remote document store does for this request: either
`requests.get` raises (network failure, timeout, or a non-2xx status via
`raise_for_status`), or it yields a response carrying an optional
`Content-Type` header and the body (held directly as its base64
text, see the module comment). -/
inductive FetchOutcome where
  | failure (message : String)
  | success (contentType : Option String) (base64Data : String)

/-- `_download_file_to_base64`: on a fetch failure, an `HTTPException`
with status 400 and the truncated URL; on success, the content type
defaults to `image/jpeg` when no header is present, and is gated with
`startswith` checks for `image/` and — notably also `startswith`, not
equality — `application/pdf`; accepted documents become a
`data:<type>;base64,<data>` payload. -/
def download_file_to_base64 (url : String) (outcome : FetchOutcome) :
    Except HTTPException String :=
  match outcome with
  | .failure e =>
    .error ⟨400, "DOCUMENT DOWNLOAD FAILED: URL " ++ url.take 50 ++
      "... returned error: " ++ e⟩
  | .success ct data =>
    let content_type := ct.getD "image/jpeg"
    if ¬ pyStartsWith content_type "image/" ∧
        ¬ pyStartsWith content_type "application/pdf" then
      .error ⟨400, "Unsupported file type: " ++ content_type⟩
    else
      .ok ("data:" ++ content_type ++ ";base64," ++ data)

/-! ## Model call with retry (`extract_data_with_llm`, lines 86–167) -/

/-- The `usageMetadata` block of a Gemini response; either count may be
absent. -/
structure UsageMetadata where
  promptTokenCount : Option ℕ
  candidatesTokenCount : Option ℕ
deriving Repr, DecidableEq

/-- What one `requests.post` to the model endpoint does.

* `response`: a response object came back, with its HTTP status, the
  optional `error.message` of its JSON body, the generated candidate
  text after `json.loads` (`Except.error` models the `KeyError`,
  `IndexError` or `JSONDecodeError` path, carrying the exception text),
  and the `usageMetadata` block when present.
* `exception`: `requests.post` itself raised with no response object. -/
inductive CallOutcome where
  | response (status : ℕ) (errorMessage : Option String)
      (candidate : Except String Json) (usage : Option UsageMetadata)
  | exception (message : String)

/-- Token accounting of a successful call: counts default to 0 when the
metadata block or either field is absent, and the total is their sum. -/
def tokenUsageOf (usage : Option UsageMetadata) : TokenUsage :=
  let meta := usage.getD ⟨none, none⟩
  let input := meta.promptTokenCount.getD 0
  let output := meta.candidatesTokenCount.getD 0
  ⟨input + output, input, output⟩

/-- The dictionary a successful `extract_data_with_llm` returns. -/
structure LlmSuccess where
  extracted_data : Json
  token_usage : TokenUsage

/-- Observable side effects of one request, in order. -/
inductive Effect where
  | fetch
  | modelCall
  | sleep (seconds : ℕ)
deriving Repr, DecidableEq

/-- Result of the model-call phase together with its effect trace. -/
structure LlmRun where
  result : Except HTTPException LlmSuccess
  effects : List Effect

/-- The `max_retries = 3` constant of the source. -/
def max_retries : ℕ := 3

/-- The `for attempt in range(max_retries)` loop. `outcomes` holds what
each successive `requests.post` would do; `prev` is the `response`
variable, which persists across iterations (so an attempt whose post
raises with no response still sees the previous attempt's response in
the handler). Per iteration, mirroring the source:

* `raise_for_status` raises exactly for statuses in `[400, 600)`; the
  handler then retries (sleep `2 ^ attempt`, continue) iff the current
  `response` has status 429 and `attempt < max_retries - 1`, and
  otherwise raises an `HTTPException` whose status is the response's own
  status (or 500 with the exception text when there is no response) and
  whose detail wraps the body's `error.message`, defaulting to
  `Unknown API Error`;
* on a non-raising status, the candidate text is parsed: success returns
  the extracted JSON with token usage, and a missing/unparsable
  candidate raises 500 with the invalid-structure message;
* only if the loop runs out of iterations does control reach the final
  `raise HTTPException(503, "LLM API failed after multiple retries.")`
  (modelled by the empty-list case). -/
def runAttempts : List CallOutcome → ℕ → Option (ℕ × Option String) → LlmRun
  | [], _, _ =>
    ⟨.error ⟨503, "LLM API failed after multiple retries."⟩, []⟩
  | outcome :: rest, attempt, prev =>
    match outcome with
    | .exception msg =>
      match prev with
      | some (st, em) =>
        if st = 429 ∧ attempt < max_retries - 1 then
          let tail := runAttempts rest (attempt + 1) prev
          ⟨tail.result, .modelCall :: .sleep (2 ^ attempt) :: tail.effects⟩
        else
          ⟨.error ⟨st, "LLM API Error: " ++ em.getD "Unknown API Error"⟩,
            [.modelCall]⟩
      | none => ⟨.error ⟨500, "LLM API Error: " ++ msg⟩, [.modelCall]⟩
    | .response st em cand usage =>
      if 400 ≤ st ∧ st < 600 then
        if st = 429 ∧ attempt < max_retries - 1 then
          let tail := runAttempts rest (attempt + 1) (some (st, em))
          ⟨tail.result, .modelCall :: .sleep (2 ^ attempt) :: tail.effects⟩
        else
          ⟨.error ⟨st, "LLM API Error: " ++ em.getD "Unknown API Error"⟩,
            [.modelCall]⟩
      else
        match cand with
        | .ok j => ⟨.ok ⟨j, tokenUsageOf usage⟩, [.modelCall]⟩
        | .error e =>
          ⟨.error ⟨500, "LLM returned invalid or unexpected structure: " ++ e⟩,
            [.modelCall]⟩

/-- The fixed behaviour of the outside world for one request: the
configured API key, the document-fetch outcome, and the outcome of each
successive model call. -/
structure Env where
  apiKey : String
  fetch : FetchOutcome
  calls : List CallOutcome

/-- `extract_data_with_llm`: checks the API key first (before any
network I/O), then downloads and encodes the document, then runs the
retry loop. The mime-type split and payload assembly of the source only
feed the outbound request body and are carried opaquely by the model
call. -/
def extract_data_with_llm (document_url : String) (env : Env) : LlmRun :=
  if env.apiKey = "" then
    ⟨.error ⟨500, "API_KEY is missing in Render environment variables. " ++
      "Check Project Settings."⟩, []⟩
  else
    match download_file_to_base64 document_url env.fetch with
    | .error e => ⟨.error e, [.fetch]⟩
    | .ok _payload =>
      let run := runAttempts env.calls 0 none
      ⟨run.result, .fetch :: run.effects⟩

/-! ## The endpoint (`extract_bill_data`, lines 174–232) -/

/-- The endpoint: runs `extract_data_with_llm`, re-raises its
`HTTPException`s unchanged, validates the extracted JSON with pydantic
(a `ValidationError` falls into the generic handler, which surfaces 500
with the exception class name), and on success aggregates and builds the
response. -/
def extract_bill_data (document_url : String) (env : Env) :
    Except HTTPException ExtractionResponse × List Effect :=
  let run := extract_data_with_llm document_url env
  match run.result with
  | .error e => (.error e, run.effects)
  | .ok out =>
    match validateLLMExtractionOutput out.extracted_data with
    | none =>
      (.error ⟨500, "UNCAUGHT SERVER ERROR: ValidationError. " ++
        "Check Render logs."⟩, run.effects)
    | some d => (.ok (buildSuccessResponse d out.token_usage), run.effects)

/-! ## Aggregation lemmas -/

/-- The inner item loop adds the page's amounts to the page sum and the
number of items to the running count. -/
theorem itemFold_eq (items : List BillItem) (s : ℚ) (c : ℕ) :
    items.foldl (fun (st : ℚ × ℕ) item => (st.1 + item.item_amount, st.2 + 1))
        (s, c)
      = (s + (items.map BillItem.item_amount).sum, c + items.length) := by
  induction items generalizing s c with
  | nil => simp
  | cons x xs ih =>
    simp only [List.foldl_cons, ih, List.map_cons, List.sum_cons,
      List.length_cons, Prod.mk.injEq]
    exact ⟨by ring, by omega⟩

/-- One page step from any running state. -/
theorem aggStep_eq (s : ℚ) (c : ℕ) (out : List PagewiseLineItem)
    (p : PagewiseLineItem) :
    aggStep (s, c, out) p
      = (s + (p.bill_items.map BillItem.item_amount).sum,
         c + p.bill_items.length, out ++ [p]) := by
  simp [aggStep, itemFold_eq]

/-- The page loop, from any accumulator. -/
theorem pageFold_eq (pages : List PagewiseLineItem) (s : ℚ) (c : ℕ)
    (out : List PagewiseLineItem) :
    pages.foldl aggStep (s, c, out)
      = (s + totalItemAmount pages, c + totalItemCount pages, out ++ pages) := by
  induction pages generalizing s c out with
  | nil => simp [totalItemAmount, totalItemCount]
  | cons p ps ih =>
    rw [List.foldl_cons, aggStep_eq, ih]
    simp only [totalItemAmount, totalItemCount, List.flatMap_cons,
      List.map_append, List.sum_append, List.length_append, Prod.mk.injEq]
    refine ⟨by ring, by omega, by simp⟩

/-- The aggregation loop computes exactly the flat item sum, the flat
item count, and the untouched page list. -/
theorem aggregatePages_eq (pages : List PagewiseLineItem) :
    aggregatePages pages
      = (totalItemAmount pages, totalItemCount pages, pages) := by
  simpa using pageFold_eq pages 0 0 []

/-! ## Concrete data shared by several witnesses (the end-to-end example
of the specification: pages "1" and "2", amounts 100.00, 50.50, 25.25,
model-reported grand total 999.99) -/

/-- The model's generated JSON for the specification's example
document. -/
def samplePayload : Json :=
  .obj [("pagewise_line_items", .arr [
      .obj [("page_no", .str "1"), ("page_type", .str "Bill Detail"),
            ("bill_items", .arr [
              .obj [("item_name", .str "A"), ("item_amount", .num 100),
                    ("item_rate", .num 100), ("item_quantity", .num 1)],
              .obj [("item_name", .str "B"), ("item_amount", .num (101 / 2)),
                    ("item_rate", .num (101 / 2)), ("item_quantity", .num 1)]])],
      .obj [("page_no", .str "2"), ("page_type", .str "Pharmacy"),
            ("bill_items", .arr [
              .obj [("item_name", .str "C"), ("item_amount", .num (101 / 4)),
                    ("item_rate", .num (101 / 4)), ("item_quantity", .num 1)]])]]),
    ("document_final_total", .num (99999 / 100))]

/-- The validated form of `samplePayload`. -/
def sampleOutput : LLMExtractionOutput :=
  ⟨[⟨"1", "Bill Detail",
      [⟨"A", 100, 100, 1⟩, ⟨"B", 101 / 2, 101 / 2, 1⟩]⟩,
    ⟨"2", "Pharmacy", [⟨"C", 101 / 4, 101 / 4, 1⟩]⟩],
   99999 / 100⟩

/-- An environment whose single model call succeeds with the example
payload and token counts 5 in, 7 out. -/
def successEnv : Env :=
  ⟨"configured-key", .success (some "application/pdf") "QUJD",
    [.response 200 none (.ok samplePayload) (some ⟨some 5, some 7⟩)]⟩

/-- The response the endpoint produces on `successEnv`. -/
def sampleResponse : ExtractionResponse :=
  buildSuccessResponse sampleOutput (tokenUsageOf (some ⟨some 5, some 7⟩))

/-- Inversion of the endpoint's success path: an `is_success` response
comes from a successful model call whose extracted JSON validated, and is
built by `buildSuccessResponse`. -/
theorem extract_bill_data_ok_inv (url : String) (env : Env)
    (resp : ExtractionResponse) (effs : List Effect)
    (h : extract_bill_data url env = (Except.ok resp, effs)) :
    ∃ out d, (extract_data_with_llm url env).result = Except.ok out
      ∧ validateLLMExtractionOutput out.extracted_data = some d
      ∧ resp = buildSuccessResponse d out.token_usage := by
  simp only [extract_bill_data] at h
  split at h
  · simp at h
  next out heq =>
    split at h
    · simp at h
    next d hv =>
      simp only [Prod.mk.injEq, Except.ok.injEq] at h
      exact ⟨out, d, heq, hv, h.1.symm⟩

/-- C1: for every validated extraction result, `final_total_extracted`
equals the sum of `item_amount` over every `BillItem` of every page,
rounded to 2 decimal places exactly once at the very end (`round2` is
applied to the exact, unrounded grand sum — no per-page rounding), and
the result does not depend on the model-reported
`document_final_total`. -/
theorem final_total_is_item_sum_rounded_once
    (d : LLMExtractionOutput) (t : TokenUsage) (g : ℚ) :
    (buildSuccessResponse d t).data.final_total_extracted
        = round2 (totalItemAmount d.pagewise_line_items)
    ∧ buildSuccessResponse { d with document_final_total := g } t
        = buildSuccessResponse d t
    ∧ ∀ (url : String) (env : Env) (resp : ExtractionResponse)
        (effs : List Effect),
        extract_bill_data url env = (Except.ok resp, effs) →
        resp.data.final_total_extracted
          = round2 (totalItemAmount resp.data.pagewise_line_items) := by
  refine ⟨by simp [buildSuccessResponse, aggregatePages_eq], rfl, ?_⟩
  intro url env resp effs h
  obtain ⟨out, d', -, -, rfl⟩ := extract_bill_data_ok_inv url env resp effs h
  simp [buildSuccessResponse, aggregatePages_eq]

/-- C1 witness: the theorem applied to the specification's example run
(amounts 100.00, 50.50, 25.25; reported grand total 999.99). -/
theorem final_total_is_item_sum_rounded_once_witness :
    sampleResponse.data.final_total_extracted
      = round2 (totalItemAmount sampleResponse.data.pagewise_line_items) :=
  (final_total_is_item_sum_rounded_once sampleOutput ⟨12, 5, 7⟩ 0).2.2
    "http://doc" successEnv sampleResponse [.fetch, .modelCall] (by rfl)

/-- C6: in every success response of the endpoint, `total_item_count`
equals the total number of `BillItem` entries across all pages. -/
theorem total_item_count_matches_item_count (url : String) (env : Env)
    (resp : ExtractionResponse) (effs : List Effect)
    (h : extract_bill_data url env = (Except.ok resp, effs)) :
    resp.data.total_item_count
      = totalItemCount resp.data.pagewise_line_items := by
  obtain ⟨out, d, -, -, rfl⟩ := extract_bill_data_ok_inv url env resp effs h
  simp [buildSuccessResponse, aggregatePages_eq]

/-- C6 witness: the example run has 3 items over 2 pages. -/
theorem total_item_count_matches_item_count_witness :
    sampleResponse.data.total_item_count
        = totalItemCount sampleResponse.data.pagewise_line_items
      ∧ sampleResponse.data.total_item_count = 3 :=
  ⟨total_item_count_matches_item_count "http://doc" successEnv sampleResponse
      [.fetch, .modelCall] (by rfl), rfl⟩

/-- C7: with an empty API key the request fails at once with the 500
missing-credential error, and the effect trace is empty: no document
fetch, no model call, no sleep. -/
theorem missing_api_key_short_circuits (url : String) (env : Env)
    (h : env.apiKey = "") :
    extract_bill_data url env
      = (Except.error ⟨500, "API_KEY is missing in Render environment " ++
          "variables. Check Project Settings."⟩, []) := by
  obtain ⟨k, f, cs⟩ := env
  change k = "" at h
  subst h
  rfl

/-- C7 witness: a concrete environment with no key configured, whose
fetch and model call would succeed if they were ever attempted. -/
theorem missing_api_key_short_circuits_witness :
    extract_bill_data "http://doc"
        ⟨"", .success (some "image/png") "QQ==",
          [.response 200 none (.ok samplePayload) none]⟩
      = (Except.error ⟨500, "API_KEY is missing in Render environment " ++
          "variables. Check Project Settings."⟩, []) :=
  missing_api_key_short_circuits "http://doc" _ rfl

/-- C2 (evidence for the code bug): when all three attempts return
HTTP 429, the loop's retry guard `attempt < max_retries - 1` fails on the
third attempt, so control takes the generic error branch and raises an
`HTTPException` with status 429 and the `LLM API Error:` detail — not the
intended 503 `LLM API failed after multiple retries.`, whose `raise` on
the line after the loop is unreachable. Both backoff sleeps (2^0, 2^1)
and all three calls do happen, and no partial result is returned. -/
theorem retry_exhaustion_surfaces_http_429
    (m1 m2 m3 : Option String) (c1 c2 c3 : Except String Json)
    (u1 u2 u3 : Option UsageMetadata) (url : String) :
    extract_bill_data url
        ⟨"configured-key", .success (some "image/png") "QQ==",
          [.response 429 m1 c1 u1, .response 429 m2 c2 u2,
           .response 429 m3 c3 u3]⟩
      = (Except.error ⟨429, "LLM API Error: " ++ m3.getD "Unknown API Error"⟩,
         [.fetch, .modelCall, .sleep (2 ^ 0), .modelCall, .sleep (2 ^ 1),
          .modelCall]) := by
  rfl

/-- C5: 429 on attempts 1 and 2 and success on attempt 3 produce a
successful (`is_success = true`) response, with sleeps of 2^0 and 2^1
time units between the attempts and exactly three model calls — no
fourth attempt. -/
theorem retry_twice_then_succeed
    (m1 m2 : Option String) (c1 c2 : Except String Json)
    (u1 u2 u3 : Option UsageMetadata) (url : String) :
    extract_bill_data url
        ⟨"configured-key", .success (some "image/png") "QQ==",
          [.response 429 m1 c1 u1, .response 429 m2 c2 u2,
           .response 200 none (.ok samplePayload) u3]⟩
      = (Except.ok (buildSuccessResponse sampleOutput (tokenUsageOf u3)),
         [.fetch, .modelCall, .sleep (2 ^ 0), .modelCall, .sleep (2 ^ 1),
          .modelCall])
      ∧ (buildSuccessResponse sampleOutput (tokenUsageOf u3)).is_success
          = true :=
  ⟨rfl, rfl⟩

/-- Every success of the retry loop carries a token-usage block built by
`tokenUsageOf` from some call's usage metadata. -/
theorem runAttempts_ok_token_shape (outcomes : List CallOutcome) (a : ℕ)
    (prev : Option (ℕ × Option String)) (s : LlmSuccess)
    (h : (runAttempts outcomes a prev).result = Except.ok s) :
    ∃ u, s.token_usage = tokenUsageOf u := by
  induction outcomes generalizing a prev with
  | nil => simp [runAttempts] at h
  | cons o rest ih =>
    cases o with
    | exception msg =>
      cases prev with
      | none => simp [runAttempts] at h
      | some p =>
        obtain ⟨st, em⟩ := p
        simp only [runAttempts] at h
        split at h
        · exact ih _ _ h
        · simp at h
    | response st em cand usage =>
      simp only [runAttempts] at h
      split at h
      · split at h
        · exact ih _ _ h
        · simp at h
      · cases cand with
        | ok j =>
          simp only at h
          exact ⟨usage, by
            have := h
            injection this with h2
            rw [← h2]⟩
        | error e => simp at h

/-- Every success of `extract_data_with_llm` carries a token-usage block
built by `tokenUsageOf`. -/
theorem llm_ok_token_shape (url : String) (env : Env) (s : LlmSuccess)
    (h : (extract_data_with_llm url env).result = Except.ok s) :
    ∃ u, s.token_usage = tokenUsageOf u := by
  simp only [extract_data_with_llm] at h
  split at h
  · simp at h
  · split at h
    · simp at h
    · exact runAttempts_ok_token_shape _ _ _ _ (by simpa using h)

/-- C9: in every successful response, `total_tokens` is the sum of
`input_tokens` and `output_tokens`, which `tokenUsageOf` reads from the
model response's usage metadata, each defaulting to 0 when the
corresponding field (or the whole block) is absent. -/
theorem token_usage_total_is_input_plus_output (url : String) (env : Env)
    (resp : ExtractionResponse) (effs : List Effect)
    (h : extract_bill_data url env = (Except.ok resp, effs)) :
    resp.token_usage.total_tokens
        = resp.token_usage.input_tokens + resp.token_usage.output_tokens
      ∧ tokenUsageOf none = ⟨0, 0, 0⟩
      ∧ (∀ i o : ℕ, tokenUsageOf (some ⟨some i, some o⟩) = ⟨i + o, i, o⟩)
      ∧ (∀ o : ℕ, tokenUsageOf (some ⟨none, some o⟩) = ⟨o, 0, o⟩) := by
  refine ⟨?_, rfl, fun i o => rfl, fun o => by simp [tokenUsageOf]⟩
  obtain ⟨out, d, hres, -, rfl⟩ := extract_bill_data_ok_inv url env resp effs h
  obtain ⟨u, hu⟩ := llm_ok_token_shape url env out hres
  simp [buildSuccessResponse, hu, tokenUsageOf]

/-- C9 witness: the example run reports 5 input and 7 output tokens and
a total of 12. -/
theorem token_usage_total_is_input_plus_output_witness :
    sampleResponse.token_usage.total_tokens
      = sampleResponse.token_usage.input_tokens
        + sampleResponse.token_usage.output_tokens :=
  (token_usage_total_is_input_plus_output "http://doc" successEnv
    sampleResponse [.fetch, .modelCall] (by rfl)).1

/-! ## Schema-validation claims -/

/-- A model output whose only page carries the out-of-enum classification
"Invoice Summary". -/
def oddPagePayload : Json :=
  .obj [("pagewise_line_items", .arr [
      .obj [("page_no", .str "1"), ("page_type", .str "Invoice Summary"),
            ("bill_items", .arr [])]]),
    ("document_final_total", .num 0)]

/-- C3 counterexample: a `page_type` outside the three enumerated values
("Invoice Summary") passes pydantic validation — the source constrains
`page_type` only to be a string — and is carried into an
`is_success = true` response, so the claimed schema-violation rejection
does not happen. -/
theorem page_type_out_of_enum_accepted_concrete :
    validateLLMExtractionOutput oddPagePayload
        = some ⟨[⟨"1", "Invoice Summary", []⟩], 0⟩
      ∧ extract_bill_data "http://doc"
          ⟨"configured-key", .success (some "image/png") "QQ==",
            [.response 200 none (.ok oddPagePayload) none]⟩
        = (Except.ok (buildSuccessResponse
            ⟨[⟨"1", "Invoice Summary", []⟩], 0⟩ ⟨0, 0, 0⟩),
           [.fetch, .modelCall])
      ∧ (buildSuccessResponse ⟨[⟨"1", "Invoice Summary", []⟩], 0⟩
          ⟨0, 0, 0⟩).is_success = true
      ∧ (buildSuccessResponse ⟨[⟨"1", "Invoice Summary", []⟩], 0⟩
          ⟨0, 0, 0⟩).data.pagewise_line_items
        = [⟨"1", "Invoice Summary", []⟩] :=
  ⟨rfl, rfl, rfl, rfl⟩

/-- C3 amended: `page_type` is validated only as being a string — any
string, including values outside the three enumerated ones, passes
validation and is carried unchanged into the success response; only a
non-string `page_type` (e.g. a JSON number) fails validation. -/
theorem page_type_validated_as_plain_string (pno pt : String) (g q : ℚ)
    (t : TokenUsage) :
    validatePagewiseLineItem (.obj [("page_no", .str pno),
        ("page_type", .str pt), ("bill_items", .arr [])])
        = some ⟨pno, pt, []⟩
      ∧ validatePagewiseLineItem (.obj [("page_no", .str pno),
          ("page_type", .num q), ("bill_items", .arr [])]) = none
      ∧ (buildSuccessResponse ⟨[⟨pno, pt, []⟩], g⟩ t).data.pagewise_line_items
        = [⟨pno, pt, []⟩] :=
  ⟨rfl, rfl, rfl⟩

/-- An item whose numeric fields are numeric-looking strings. -/
def stringyItem : Json :=
  .obj [("item_name", .str "Paracetamol"), ("item_amount", .str "100.5"),
        ("item_rate", .str "50.25"), ("item_quantity", .str "2")]

/-- A model output containing `stringyItem`. -/
def stringyPayload : Json :=
  .obj [("pagewise_line_items", .arr [
      .obj [("page_no", .str "1"), ("page_type", .str "Pharmacy"),
            ("bill_items", .arr [stringyItem])]]),
    ("document_final_total", .num 100)]

/-- C4 counterexample: numeric-looking text is not rejected — pydantic's
default lax mode coerces the strings "100.5", "50.25" and "2" to floats
(100.5 = 201/2, 50.25 = 201/4, 2), the item validates, and the request
succeeds, contrary to the claim that wrong-typed (string) numeric fields
invalidate the entire result. -/
theorem numeric_string_fields_accepted_concrete :
    validateBillItem stringyItem
        = some ⟨"Paracetamol", 201 / 2, 201 / 4, 2⟩
      ∧ ∃ resp, (extract_bill_data "http://doc"
            ⟨"configured-key", .success (some "image/png") "QQ==",
              [.response 200 none (.ok stringyPayload) none]⟩).1
          = Except.ok resp ∧ resp.is_success = true := by
  constructor
  · show some (⟨"Paracetamol",
        (1 : ℚ) * (((100 : ℕ) : ℚ) + ((5 : ℕ) : ℚ) / (10 : ℚ) ^ 1),
        (1 : ℚ) * (((50 : ℕ) : ℚ) + ((25 : ℕ) : ℚ) / (10 : ℚ) ^ 2),
        (1 : ℚ) * (((2 : ℕ) : ℚ) + ((0 : ℕ) : ℚ) / (10 : ℚ) ^ 0)⟩ : BillItem)
      = some ⟨"Paracetamol", 201 / 2, 201 / 4, 2⟩
    simp only [Option.some.injEq, BillItem.mk.injEq]
    norm_num
  · exact ⟨_, rfl, rfl⟩

/-- One unvalidatable element fails the whole item list. -/
theorem validateItems_none_of_mem (items : List Json) (e : Json)
    (hmem : e ∈ items) (hbad : validateBillItem e = none) :
    validateItems items = none := by
  induction items with
  | nil => cases hmem
  | cons j rest ih =>
    rcases List.mem_cons.mp hmem with rfl | hm
    · simp [validateItems, hbad]
    · cases hj : validateBillItem j <;>
        simp [validateItems, hj, ih hm]

/-- One unvalidatable page fails the whole page list. -/
theorem validatePages_none_of_mem (pages : List Json) (p : Json)
    (hmem : p ∈ pages) (hbad : validatePagewiseLineItem p = none) :
    validatePages pages = none := by
  induction pages with
  | nil => cases hmem
  | cons j rest ih =>
    rcases List.mem_cons.mp hmem with rfl | hm
    · simp [validatePages, hbad]
    · cases hj : validatePagewiseLineItem j <;>
        simp [validatePages, hj, ih hm]

/-- A page containing one unvalidatable item fails as a whole. -/
theorem validatePage_none_of_bad_item (pno pt : String) (items : List Json)
    (e : Json) (hmem : e ∈ items) (hbad : validateBillItem e = none) :
    validatePagewiseLineItem (.obj [("page_no", .str pno),
        ("page_type", .str pt), ("bill_items", .arr items)]) = none := by
  simp [validatePagewiseLineItem, Json.lookup,
    validateItems_none_of_mem items e hmem hbad]

/-- C4 amended: every `BillItem` needs all four fields present, with
amount, rate and quantity being JSON numbers or numeric strings (which
pydantic lax mode coerces to numbers); when any item of any page is
missing a field or carries a non-coercible value, the entire model
output is rejected and the endpoint returns the 500 validation error —
no partial aggregation occurs. -/
theorem invalid_item_rejects_whole_result (pagesJson : List Json) (g : Json)
    (pno pt : String) (items : List Json) (e : Json) (url data : String)
    (u : Option UsageMetadata)
    (hpage : Json.obj [("page_no", .str pno), ("page_type", .str pt),
        ("bill_items", .arr items)] ∈ pagesJson)
    (hmem : e ∈ items) (hbad : validateBillItem e = none) :
    validateLLMExtractionOutput (.obj [("pagewise_line_items", .arr pagesJson),
        ("document_final_total", g)]) = none
      ∧ (extract_bill_data url
          ⟨"configured-key", .success (some "image/png") data,
            [.response 200 none
              (.ok (.obj [("pagewise_line_items", .arr pagesJson),
                ("document_final_total", g)])) u]⟩).1
        = Except.error ⟨500, "UNCAUGHT SERVER ERROR: ValidationError. " ++
            "Check Render logs."⟩ := by
  have hp := validatePage_none_of_bad_item pno pt items e hmem hbad
  have hps := validatePages_none_of_mem pagesJson _ hpage hp
  have hv : validateLLMExtractionOutput
      (.obj [("pagewise_line_items", .arr pagesJson),
        ("document_final_total", g)]) = none := by
    simp [validateLLMExtractionOutput, Json.lookup, hps]
  refine ⟨hv, ?_⟩
  have hrun : (extract_data_with_llm url
      ⟨"configured-key", .success (some "image/png") data,
        [.response 200 none
          (.ok (.obj [("pagewise_line_items", .arr pagesJson),
            ("document_final_total", g)])) u]⟩).result
      = Except.ok ⟨.obj [("pagewise_line_items", .arr pagesJson),
          ("document_final_total", g)], tokenUsageOf u⟩ := rfl
  simp [extract_bill_data, hrun, hv]

/-- C4 amended witness: an item with no `item_rate` on the first page
makes the whole output invalid. -/
theorem invalid_item_rejects_whole_result_witness :
    validateLLMExtractionOutput (.obj [("pagewise_line_items", .arr [
        .obj [("page_no", .str "1"), ("page_type", .str "Bill Detail"),
              ("bill_items", .arr [.obj [("item_name", .str "X"),
                ("item_amount", .num 10), ("item_quantity", .num 1)]])]]),
      ("document_final_total", .num 0)]) = none :=
  (invalid_item_rejects_whole_result
      [.obj [("page_no", .str "1"), ("page_type", .str "Bill Detail"),
             ("bill_items", .arr [.obj [("item_name", .str "X"),
               ("item_amount", .num 10), ("item_quantity", .num 1)]])]]
      (.num 0) "1" "Bill Detail"
      [.obj [("item_name", .str "X"), ("item_amount", .num 10),
        ("item_quantity", .num 1)]]
      (.obj [("item_name", .str "X"), ("item_amount", .num 10),
        ("item_quantity", .num 1)])
      "http://doc" "QQ==" none
      (List.mem_singleton.mpr rfl) (List.mem_singleton.mpr rfl) rfl).1

/-! ## Content-type gating claims -/

/-- C8 counterexample: the declared type "application/pdf-x" is neither
an `image/` type nor exactly "application/pdf", yet the downloader
accepts it, because the source gates with `startswith` on both
prefixes. -/
theorem pdf_prefix_content_type_accepted_concrete :
    download_file_to_base64 "http://doc"
        (.success (some "application/pdf-x") "QQ==")
        = Except.ok "data:application/pdf-x;base64,QQ=="
      ∧ pyStartsWith "application/pdf-x" "image/" = false
      ∧ "application/pdf-x" ≠ "application/pdf" :=
  ⟨rfl, rfl, by decide⟩

/-- C8 amended: a downloaded document is accepted iff its declared
content type starts with "image/" or starts with "application/pdf"
(not: is exactly "application/pdf"); any other declared type (e.g.
`text/html`) fails with the 400 unsupported-file-type error and the
model is never called. -/
theorem content_type_gating (url ct data : String)
    (calls : List CallOutcome) :
    (download_file_to_base64 url (.success (some ct) data)
        = Except.ok ("data:" ++ ct ++ ";base64," ++ data)
      ↔ (pyStartsWith ct "image/" = true
          ∨ pyStartsWith ct "application/pdf" = true))
    ∧ (pyStartsWith ct "image/" = false →
        pyStartsWith ct "application/pdf" = false →
        extract_bill_data url
            ⟨"configured-key", .success (some ct) data, calls⟩
          = (Except.error ⟨400, "Unsupported file type: " ++ ct⟩,
             [.fetch])) := by
  constructor
  · cases h1 : pyStartsWith ct "image/" <;>
      cases h2 : pyStartsWith ct "application/pdf" <;>
        simp [download_file_to_base64, h1, h2]
  · intro h1 h2
    simp [extract_bill_data, extract_data_with_llm, download_file_to_base64,
      h1, h2]

/-- C8 amended witness: `text/html` is rejected with 400 before any
model call (the effect trace holds only the fetch). -/
theorem content_type_gating_witness :
    extract_bill_data "http://doc"
        ⟨"configured-key", .success (some "text/html") "QQ==", []⟩
      = (Except.error ⟨400, "Unsupported file type: " ++ "text/html"⟩,
         [.fetch]) :=
  (content_type_gating "http://doc" "text/html" "QQ==" []).2 rfl rfl

/-- C10: a fetched response that declares no Content-Type header at all
is given the default type "image/jpeg" and accepted. -/
theorem missing_content_type_defaults_to_image_jpeg (url data : String) :
    download_file_to_base64 url (.success none data)
      = Except.ok ("data:image/jpeg;base64," ++ data) := rfl

end BillExtract
